import Mathlib

/-!
Verification of the google-docs-mcp-rs repository against its specification.

The development shallowly embeds the relevant Rust code:

* `src/api/client.rs` — the access-token lifecycle manager
  (`GoogleDocsClient::get_access_token`, `GoogleDocsClient::fetch_new_token`),
  the response classifier `handle_response` and the transport-error mapper
  `handle_api_error`, plus the two gateway operations `get_document` and
  `batch_update`.
* `src/tools/documents.rs` — the tool surface
  (`google_docs_get_document`, `google_docs_update_document`), the
  edit-operation translation `convert_requests`, the text extraction walkers,
  and the response formatters including `truncate_text`.
* `src/models/document.rs` — the data model mirrored by the structures below.

Machine integers (`i64`, `i32`) are modelled as `Int` (no arithmetic here can
overflow at the values the claims concern, and the Rust code does unchecked
signed arithmetic that panics on overflow rather than wrapping).  Rust
`String` is modelled by Lean `String`; Rust's `str::len` (UTF-8 byte length)
corresponds to `String.utf8ByteSize`.  Fallible Rust paths return
`Except`/`Option`; a Rust panic is modelled as `Option.none`.

Network effects are modelled by passing the environment's behaviour (the
issuer's and the document API's response) as explicit arguments, together
with counters of the round-trips the code performs against each remote.
-/

namespace GoogleDocsMcp

/-- Mirrors `JWT_EXPIRATION_SECS` from `src/constants.rs`. -/
def JWT_EXPIRATION_SECS : Int := 3600

/-- Mirrors `CachedToken` from `src/api/client.rs` (lines 31-35). -/
structure CachedToken where
  access_token : String
  expires_at : Int
deriving Repr, DecidableEq

/-- Mirrors `TokenResponse` from `src/models/document.rs` (lines 311-321). -/
structure TokenResponse where
  access_token : String
  token_type : String
  expires_in : Int
deriving Repr, DecidableEq

/-- The two `rmcp::ErrorData` constructors the code uses:
`McpError::invalid_params` and `McpError::internal_error`. -/
inductive ErrCode where
  | invalidParams
  | internalError
deriving Repr, DecidableEq

/-- Model of `rmcp::ErrorData` as the code uses it: a constructor kind plus
the formatted message (the `data` argument is always `None` in this repo). -/
structure McpError where
  code : ErrCode
  message : String
deriving Repr, DecidableEq

/-- Mirrors `McpError::invalid_params(msg, None)`. -/
def invalid_params (msg : String) : McpError :=
  { code := ErrCode.invalidParams, message := msg }

/-- Mirrors `McpError::internal_error(msg, None)`. -/
def internal_error (msg : String) : McpError :=
  { code := ErrCode.internalError, message := msg }

/-- The three transport-failure shapes `handle_api_error` distinguishes on a
`reqwest::Error`: timeout, connection failure, or any other network error
(carrying its rendered message). -/
inductive NetError where
  | timeout
  | connect
  | other (msg : String)
deriving Repr, DecidableEq

/-- Mirrors `handle_api_error` from `src/api/client.rs` (lines 245-256). -/
def handle_api_error : NetError → McpError
  | NetError.timeout =>
      internal_error "Request timed out. Please try again."
  | NetError.connect =>
      internal_error
        "Failed to connect to Google API. Please check network connectivity."
  | NetError.other m => internal_error ("Network error: " ++ m)

/-- Outcome of the local JWT-construction phase of `fetch_new_token`
(lines 119-127): the private-key parse may fail, the signing may fail, or a
compact-serialized JWT is produced.  Both failures happen before any network
round-trip. -/
inductive JwtOutcome where
  | keyError (detail : String)
  | signError (detail : String)
  | ok (jwt : String)
deriving Repr, DecidableEq

instance {ε α : Type} [DecidableEq ε] [DecidableEq α] : DecidableEq (Except ε α)
  | Except.error e1, Except.error e2 =>
    if h : e1 = e2 then isTrue (by rw [h])
    else isFalse (by intro c; injection c; contradiction)
  | Except.error _, Except.ok _ => isFalse (by intro c; cases c)
  | Except.ok _, Except.error _ => isFalse (by intro c; cases c)
  | Except.ok a1, Except.ok a2 =>
    if h : a1 = a2 then isTrue (by rw [h])
    else isFalse (by intro c; injection c; contradiction)

/-- Outcome of the POST to the token issuer (lines 135-157): either the
transport fails, or a response arrives with a status, a body text, and the
result of deserializing the body as a `TokenResponse` (the serde error
message when deserialization fails). -/
inductive ExchangeOutcome where
  | netError (e : NetError)
  | response (status : Nat) (body : String) (parsed : Except String TokenResponse)
deriving Repr, DecidableEq

/-- The environment's behaviour for one refresh attempt. -/
structure RefreshEnv where
  jwt : JwtOutcome
  exchange : ExchangeOutcome
deriving Repr, DecidableEq

/-- Mirrors `reqwest::StatusCode::is_success`: status in `200..=299`. -/
def isSuccessStatus (s : Nat) : Bool := 200 ≤ s && s ≤ 299

/-- Mirrors `GoogleDocsClient::fetch_new_token` from `src/api/client.rs`
(lines 107-163).  `now` is the single `Utc::now().timestamp()` reading taken
at line 108, before the network exchange; the returned token's `expires_at`
is `now + expires_in` (line 161). -/
def fetch_new_token (now : Int) (env : RefreshEnv) : Except McpError CachedToken :=
  match env.jwt with
  | JwtOutcome.keyError d =>
      Except.error (internal_error ("Failed to parse private key: " ++ d))
  | JwtOutcome.signError d =>
      Except.error (internal_error ("Failed to create JWT: " ++ d))
  | JwtOutcome.ok _jwt =>
      match env.exchange with
      | ExchangeOutcome.netError e => Except.error (handle_api_error e)
      | ExchangeOutcome.response status body parsed =>
          if isSuccessStatus status then
            match parsed with
            | Except.ok tr =>
                Except.ok
                  { access_token := tr.access_token
                    expires_at := now + tr.expires_in }
            | Except.error d =>
                Except.error
                  (internal_error ("Failed to parse token response: " ++ d))
          else
            Except.error
              (internal_error
                ("Failed to obtain access token: " ++ toString status ++ " - " ++ body))

/-- Number of issuer round-trips a refresh attempt performs: the POST at
lines 135-141 is reached exactly when JWT construction succeeded. -/
def issuerTrips (env : RefreshEnv) : Nat :=
  match env.jwt with
  | JwtOutcome.ok _ => 1
  | _ => 0

/-- Result of one `get_access_token` call: the returned value, the state of
the cached-token slot afterwards, the number of issuer round-trips performed,
and whether the refresh path was entered at all. -/
structure GetTokenResult where
  result : Except McpError String
  cache : Option CachedToken
  issuerTrips : Nat
  refreshAttempted : Bool
deriving Repr, DecidableEq

/-- The freshness check at line 88 of `src/api/client.rs`:
`token.expires_at > now + 60`. -/
def tokenFresh (t : CachedToken) (now : Int) : Bool :=
  now + 60 < t.expires_at

/-- Freshness of the cached slot as a whole: an absent token is never fresh
(lines 84-91). -/
def cacheFresh (cache : Option CachedToken) (now : Int) : Bool :=
  match cache with
  | some t => tokenFresh t now
  | none => false

/-- The refresh path of `get_access_token` (lines 94-103): fetch a new token
and, on success, atomically replace the cached slot; on failure the `?` at
line 95 returns early and the slot is untouched. -/
def refreshAndCache (cache : Option CachedToken) (t0 : Int) (env : RefreshEnv) :
    GetTokenResult :=
  match fetch_new_token t0 env with
  | Except.error e =>
      { result := Except.error e
        cache := cache
        issuerTrips := issuerTrips env
        refreshAttempted := true }
  | Except.ok t =>
      { result := Except.ok t.access_token
        cache := some t
        issuerTrips := issuerTrips env
        refreshAttempted := true }

/-- Mirrors `GoogleDocsClient::get_access_token` from `src/api/client.rs`
(lines 81-104).  `now` is the clock reading taken during the freshness check
(line 86); `t0` is the clock reading taken at the start of `fetch_new_token`
(line 108) when the refresh path is entered. -/
def get_access_token (cache : Option CachedToken) (now t0 : Int)
    (env : RefreshEnv) : GetTokenResult :=
  match cache with
  | some t =>
      if tokenFresh t now then
        { result := Except.ok t.access_token
          cache := some t
          issuerTrips := 0
          refreshAttempted := false }
      else
        refreshAndCache (some t) t0 env
  | none => refreshAndCache none t0 env

/-- Mirrors `handle_response` from `src/api/client.rs` (lines 208-242),
generic in the deserialization target exactly as the Rust function is generic
in `T: DeserializeOwned`.  `parsed` is the result of deserializing the
response body as `T` (the serde error message when that fails); the Rust
`match status.as_u16()` over literals is written as the equivalent chain of
equality tests. -/
def handle_response {T : Type} (status : Nat) (body : String)
    (parsed : Except String T) : Except McpError T :=
  if isSuccessStatus status then
    match parsed with
    | Except.ok t => Except.ok t
    | Except.error d =>
        Except.error (internal_error ("Failed to parse API response: " ++ d))
  else
    Except.error
      (if status = 404 then
        invalid_params
          ("Document not found. Please check the document ID. Details: " ++ body)
      else if status = 403 then
        invalid_params
          ("Permission denied. Ensure the service account has access to this document. Details: "
            ++ body)
      else if status = 401 then
        internal_error
          ("Authentication failed. Check service account credentials. Details: "
            ++ body)
      else if status = 429 then
        internal_error
          "Rate limit exceeded. Please wait before making more requests."
      else
        internal_error
          ("API request failed with status " ++ toString status ++ ": " ++ body))

/-- Behaviour of one call to the document API, as the environment chooses it:
either the transport fails with a `reqwest` error, or a response arrives with
a status, a body text, and the result of deserializing the body as `T`. -/
structure ApiCallEnv (T : Type) where
  net : Option NetError
  status : Nat
  body : String
  parsed : Except String T
deriving Repr, DecidableEq

/-- One outbound document-API call followed by response classification: the
`map_err(handle_api_error)` plus `handle_response` pattern shared by
`get_document` (lines 169-177) and `batch_update` (lines 190-203). -/
def docApiCall {T : Type} (env : ApiCallEnv T) : Except McpError T :=
  match env.net with
  | some e => Except.error (handle_api_error e)
  | none => handle_response env.status env.body env.parsed

/-- Mirrors `TextRun` from `src/models/document.rs`. -/
structure TextRun where
  content : Option String
deriving Repr, DecidableEq

/-- Mirrors `ParagraphElement` from `src/models/document.rs`. -/
structure ParagraphElement where
  start_index : Option Int
  end_index : Option Int
  text_run : Option TextRun
deriving Repr, DecidableEq

/-- Mirrors `Paragraph` from `src/models/document.rs`. -/
structure Paragraph where
  elements : List ParagraphElement
deriving Repr, DecidableEq

/-- Mirrors `StructuralElement` from `src/models/document.rs`. -/
structure StructuralElement where
  start_index : Option Int
  end_index : Option Int
  paragraph : Option Paragraph
deriving Repr, DecidableEq

/-- Mirrors `DocumentBody` from `src/models/document.rs`. -/
structure DocumentBody where
  content : List StructuralElement
deriving Repr, DecidableEq

/-- Mirrors `DocumentTab` from `src/models/document.rs`. -/
structure DocumentTab where
  body : Option DocumentBody
deriving Repr, DecidableEq

/-- Mirrors `TabProperties` from `src/models/document.rs`. -/
structure TabProperties where
  tab_id : Option String
  title : Option String
  index : Option Int
deriving Repr, DecidableEq

/-- Mirrors `Tab` from `src/models/document.rs`; `child_tabs` makes this a
nested inductive. -/
inductive Tab where
  | mk (tab_properties : Option TabProperties) (document_tab : Option DocumentTab)
      (child_tabs : List Tab)
deriving Repr

/-- Field accessor for `Tab.tab_properties`. -/
def Tab.tab_properties : Tab → Option TabProperties
  | Tab.mk p _ _ => p

/-- Field accessor for `Tab.document_tab`. -/
def Tab.document_tab : Tab → Option DocumentTab
  | Tab.mk _ d _ => d

/-- Field accessor for `Tab.child_tabs`. -/
def Tab.child_tabs : Tab → List Tab
  | Tab.mk _ _ c => c

/-- Mirrors `Document` from `src/models/document.rs` (lines 54-74). -/
structure Document where
  document_id : String
  title : String
  body : Option DocumentBody
  tabs : List Tab
  revision_id : Option String
deriving Repr

/-- Mirrors `BatchUpdateResponse` from `src/models/document.rs`
(lines 266-275); the `serde_json::Value` replies are opaque to this code and
modelled as their rendered text. -/
structure BatchUpdateResponse where
  document_id : String
  replies : List String
deriving Repr, DecidableEq

/-- Mirrors `GoogleDocsClient::get_document` from `src/api/client.rs`
(lines 166-178): obtain a token (the outcome `tok` of `get_access_token`),
and if that succeeded perform exactly one GET and classify the response.
The second component counts document-API round-trips performed. -/
def get_document (tok : GetTokenResult) (env : ApiCallEnv Document) :
    Except McpError Document × Nat :=
  match tok.result with
  | Except.error e => (Except.error e, 0)
  | Except.ok _token => (docApiCall env, 1)

/-- Mirrors `Location` from `src/models/document.rs`. -/
structure Location where
  index : Int
deriving Repr, DecidableEq

/-- Mirrors `InsertTextRequest` from `src/models/document.rs`. -/
structure InsertTextRequest where
  text : String
  location : Location
deriving Repr, DecidableEq

/-- Mirrors `Range` from `src/models/document.rs`. -/
structure Range where
  start_index : Int
  end_index : Int
deriving Repr, DecidableEq

/-- Mirrors `DeleteContentRangeRequest` from `src/models/document.rs`. -/
structure DeleteContentRangeRequest where
  range : Range
deriving Repr, DecidableEq

/-- Mirrors `ContainsText` from `src/models/document.rs`. -/
structure ContainsText where
  text : String
  match_case : Bool
deriving Repr, DecidableEq

/-- Mirrors `ReplaceAllTextRequest` from `src/models/document.rs`. -/
structure ReplaceAllTextRequest where
  contains_text : ContainsText
  replace_text : String
deriving Repr, DecidableEq

/-- Mirrors `GoogleDocsRequest` from `src/models/document.rs`
(lines 193-207).  Each `Option` field is serialized with
`skip_serializing_if = "Option::is_none"`, so a field is present as a key in
the wire JSON exactly when it is `some`. -/
structure GoogleDocsRequest where
  insert_text : Option InsertTextRequest
  delete_content_range : Option DeleteContentRangeRequest
  replace_all_text : Option ReplaceAllTextRequest
deriving Repr, DecidableEq

/-- Mirrors `GoogleDocsClient::batch_update` from `src/api/client.rs`
(lines 181-204); the converted request list is the POST body, opaque to the
control flow modelled here. -/
def batch_update (_requests : List GoogleDocsRequest) (tok : GetTokenResult)
    (env : ApiCallEnv BatchUpdateResponse) :
    Except McpError BatchUpdateResponse × Nat :=
  match tok.result with
  | Except.error e => (Except.error e, 0)
  | Except.ok _token => (docApiCall env, 1)

/-- Mirrors the user-facing `DocumentRequest` enum from
`src/models/document.rs` (lines 18-47); the Rust indices are `i32`. -/
inductive DocumentRequest where
  | insertText (text : String) (index : Int)
  | deleteContentRange (start_index : Int) (end_index : Int)
  | replaceAllText (find_text : String) (replace_text : String) (match_case : Bool)
deriving Repr, DecidableEq

/-- One arm of the closure mapped over the input list in `convert_requests`
(`src/tools/documents.rs` lines 197-255). -/
def convertOne : DocumentRequest → Except String GoogleDocsRequest
  | DocumentRequest.insertText text index =>
      if index < 1 then
        Except.error
          "Insert index must be at least 1 (1 = beginning of document body)"
      else
        Except.ok
          { insert_text := some { text := text, location := { index := index } }
            delete_content_range := none
            replace_all_text := none }
  | DocumentRequest.deleteContentRange start_index end_index =>
      if start_index < 1 then
        Except.error "Start index must be at least 1"
      else if end_index ≤ start_index then
        Except.error "End index must be greater than start index"
      else
        Except.ok
          { insert_text := none
            delete_content_range :=
              some { range := { start_index := start_index, end_index := end_index } }
            replace_all_text := none }
  | DocumentRequest.replaceAllText find_text replace_text match_case =>
      if find_text.isEmpty then
        Except.error "Find text cannot be empty"
      else
        Except.ok
          { insert_text := none
            delete_content_range := none
            replace_all_text :=
              some { contains_text := { text := find_text, match_case := match_case }
                     replace_text := replace_text } }

/-- Mirrors `convert_requests` from `src/tools/documents.rs` (lines 194-257):
`iter().map(..).collect::<Result<Vec<_>, _>>()` short-circuits at the first
failing element, exactly like this recursion. -/
def convert_requests : List DocumentRequest → Except String (List GoogleDocsRequest)
  | [] => Except.ok []
  | r :: rs =>
      match convertOne r with
      | Except.error e => Except.error e
      | Except.ok g =>
          match convert_requests rs with
          | Except.error e => Except.error e
          | Except.ok gs => Except.ok (g :: gs)

/-- The precondition §4.2 of the spec states for a single operation; used to
compare `convert_requests` against the spec's validation rules. -/
def validOp : DocumentRequest → Bool
  | DocumentRequest.insertText _ index => 1 ≤ index
  | DocumentRequest.deleteContentRange s e => 1 ≤ s && s < e
  | DocumentRequest.replaceAllText f _ _ => !f.isEmpty

/-- Boolean success test for an `Except` value. -/
def exceptIsOk {ε α : Type} : Except ε α → Bool
  | Except.ok _ => true
  | Except.error _ => false

/-- Exactly one of the three mutually-exclusive wire keys is present
(a key is present in the serialized JSON iff its field is `some`, by the
`skip_serializing_if` attributes on `GoogleDocsRequest`). -/
def exactlyOneKey (g : GoogleDocsRequest) : Bool :=
  (g.insert_text.isSome && g.delete_content_range.isNone && g.replace_all_text.isNone)
    || (g.insert_text.isNone && g.delete_content_range.isSome && g.replace_all_text.isNone)
    || (g.insert_text.isNone && g.delete_content_range.isNone && g.replace_all_text.isSome)

/-- Text contributed by one paragraph element in `extract_text_from_body`
(`src/tools/documents.rs` lines 264-270). -/
def textOfParaElement (pe : ParagraphElement) : String :=
  match pe.text_run with
  | some tr =>
      match tr.content with
      | some c => c
      | none => ""
  | none => ""

/-- Text contributed by one structural element in `extract_text_from_body`. -/
def textOfElement (el : StructuralElement) : String :=
  match el.paragraph with
  | some p => String.join (p.elements.map textOfParaElement)
  | none => ""

/-- Mirrors `extract_text_from_body` from `src/tools/documents.rs`
(lines 260-274): the nested `push_str` loops concatenate the text runs in
order. -/
def extract_text_from_body (body : DocumentBody) : String :=
  String.join (body.content.map textOfElement)

mutual

/-- Mirrors `extract_text_from_tab` from `src/tools/documents.rs`
(lines 277-293): this tab's body text followed by the recursively extracted
child-tab text. -/
def extract_text_from_tab (t : Tab) : String :=
  match t with
  | Tab.mk _ dt children =>
      (match dt with
       | some d =>
           match d.body with
           | some b => extract_text_from_body b
           | none => ""
       | none => "") ++ extract_text_from_tabs children

/-- The `for child_tab in &tab.child_tabs` loop of `extract_text_from_tab`. -/
def extract_text_from_tabs (ts : List Tab) : String :=
  match ts with
  | [] => ""
  | t :: rest => extract_text_from_tab t ++ extract_text_from_tabs rest

end

/-- Mirrors `extract_text_content` from `src/tools/documents.rs`
(lines 296-312). -/
def extract_text_content (document : Document) : String :=
  if !document.tabs.isEmpty then
    extract_text_from_tabs document.tabs
  else
    match document.body with
    | some body => extract_text_from_body body
    | none => ""

/-- Mirrors `ResponseFormat` from `src/models/document.rs` (lines 7-13). -/
inductive ResponseFormat where
  | markdown
  | json
deriving Repr, DecidableEq

/-- Renders a string as a JSON string literal.  Models `serde_json`'s string
serialization; `String.quote` escapes quotes, backslashes and control
characters the same way for the inputs the claims use. -/
def jsonString (s : String) : String := s.quote

/-- Renders an optional string as `serde_json` renders `Option<String>`. -/
def jsonOptString (s : Option String) : String :=
  match s with
  | some v => jsonString v
  | none => "null"

/-- Mirrors `format_get_response` from `src/tools/documents.rs`
(lines 315-344).  The JSON branch reproduces `serde_json::json!(..).to_string()`
with its sorted-key compact rendering. -/
def format_get_response (document : Document) (format : ResponseFormat) : String :=
  let content := extract_text_content document
  match format with
  | ResponseFormat.markdown =>
      let url := "https://docs.google.com/document/d/" ++ document.document_id ++ "/edit"
      "# " ++ document.title ++ "\n\n- **Document ID**: `" ++ document.document_id
        ++ "`\n- **URL**: [Open in Google Docs](" ++ url
        ++ ")\n\n## Content\n\n" ++ content
  | ResponseFormat.json =>
      "\x7b\"content\":" ++ jsonString content
        ++ ",\"document_id\":" ++ jsonString document.document_id
        ++ ",\"revision_id\":" ++ jsonOptString document.revision_id
        ++ ",\"title\":" ++ jsonString document.title
        ++ ",\"url\":" ++ jsonString
            ("https://docs.google.com/document/d/" ++ document.document_id ++ "/edit")
        ++ "\x7d"

/-- Longest prefix of the character list whose UTF-8 encoding is exactly `n`
bytes, or `none` when `n` falls strictly inside a character's encoding —
i.e. when `n` is not a char boundary, the case where Rust's byte-slicing
`&text[..n]` panics. -/
def utf8TakeBytes : List Char → Nat → Option (List Char)
  | _, 0 => some []
  | [], _ + 1 => none
  | c :: cs, n + 1 =>
      if c.utf8Size ≤ n + 1 then
        match utf8TakeBytes cs (n + 1 - c.utf8Size) with
        | some pre => some (c :: pre)
        | none => none
      else none

/-- Mirrors `truncate_text` from `src/tools/documents.rs` (lines 416-421).
Rust's `text.len()` is the UTF-8 byte length and `&text[..max_len]` slices by
bytes, panicking when `max_len` is not a char boundary; the panic is modelled
as `none`. -/
def truncate_text (text : String) (max_len : Nat) : Option String :=
  if text.utf8ByteSize ≤ max_len then some text
  else
    match utf8TakeBytes text.data max_len with
    | some pre => some (String.mk pre ++ "...")
    | none => none

/-- Renders a `bool` as Rust's `Display` does. -/
def boolText (b : Bool) : String := if b then "true" else "false"

/-- The per-operation description built in the loop of
`format_update_response` (`src/tools/documents.rs` lines 364-400); `i` is the
zero-based loop index.  `none` propagates a `truncate_text` panic. -/
def describeRequest (i : Nat) : DocumentRequest → Option String
  | DocumentRequest.insertText text index =>
      match truncate_text text 50 with
      | some t =>
          some (toString (i + 1) ++ ". Inserted text at index " ++ toString index
            ++ ": \"" ++ t ++ "\"")
      | none => none
  | DocumentRequest.deleteContentRange start_index end_index =>
      some (toString (i + 1) ++ ". Deleted content from index "
        ++ toString start_index ++ " to " ++ toString end_index)
  | DocumentRequest.replaceAllText find_text replace_text match_case =>
      match truncate_text find_text 30 with
      | some tf =>
          match truncate_text replace_text 30 with
          | some tr =>
              some (toString (i + 1) ++ ". Replaced \"" ++ tf ++ "\" with \"" ++ tr
                ++ "\" (case-sensitive: " ++ boolText match_case ++ ")")
          | none => none
      | none => none

/-- The `for (i, req) in requests.iter().enumerate()` loop of
`format_update_response`. -/
def describeRequests (i : Nat) : List DocumentRequest → Option (List String)
  | [] => some []
  | r :: rs =>
      match describeRequest i r with
      | none => none
      | some d =>
          match describeRequests (i + 1) rs with
          | none => none
          | some ds => some (d :: ds)

/-- Mirrors `format_update_response` from `src/tools/documents.rs`
(lines 347-413).  `none` models a panic escaping from `truncate_text`; the
JSON branch reproduces the sorted-key compact `serde_json` rendering. -/
def format_update_response (document_id : String)
    (requests : List DocumentRequest) (format : ResponseFormat) : Option String :=
  match format with
  | ResponseFormat.markdown =>
      match describeRequests 0 requests with
      | none => none
      | some descs =>
          some (String.intercalate "\n"
            (["# Document Updated", "",
              "- **Document ID**: `" ++ document_id ++ "`",
              "- **Operations Applied**: " ++ toString requests.length, "",
              "## Operations", ""] ++ descs))
  | ResponseFormat.json =>
      some ("\x7b\"document_id\":" ++ jsonString document_id
        ++ ",\"operations_count\":" ++ toString requests.length
        ++ ",\"success\":true\x7d")

/-- Models Rust's `str::trim`: strip leading and trailing whitespace.  (Rust
trims by the Unicode White_Space property; the claims only apply this to
strings whose whitespace, if any, is ASCII, where the two notions agree.) -/
def rustTrim (s : String) : String :=
  String.mk
    (((s.data.dropWhile Char.isWhitespace).reverse.dropWhile Char.isWhitespace).reverse)

/-- Mirrors `GetDocumentParams` from `src/tools/documents.rs` (lines 27-34). -/
structure GetDocumentParams where
  document_id : String
  response_format : ResponseFormat
deriving Repr, DecidableEq

/-- Mirrors `UpdateDocumentParams` from `src/tools/documents.rs`
(lines 38-48). -/
structure UpdateDocumentParams where
  document_id : String
  requests : List DocumentRequest
  response_format : ResponseFormat
deriving Repr, DecidableEq

/-- Mirrors `rmcp::model::CallToolResult` as the code constructs it:
`CallToolResult::error(vec![Content::text(..)])` or
`CallToolResult::success(vec![Content::text(..)])`. -/
structure CallToolResult where
  isError : Bool
  text : String
deriving Repr, DecidableEq

/-- Observable outcome of one tool invocation: the returned payload (`none`
models an uncaught panic), the number of issuer round-trips, and the number
of document-API round-trips performed. -/
structure ToolRun where
  result : Option CallToolResult
  issuerTrips : Nat
  apiCalls : Nat
deriving Repr, DecidableEq

/-- Models the `format!("{:?}", e)` Debug rendering of `rmcp::ErrorData`
interpolated at `src/tools/documents.rs` lines 78 and 173.  The exact Debug
syntax is immaterial to the claims; the model keeps the constructor kind and
the message. -/
def renderMcpError (e : McpError) : String :=
  "ErrorData(" ++
    (match e.code with
     | ErrCode.invalidParams => "invalid_params"
     | ErrCode.internalError => "internal_error")
    ++ ", " ++ e.message ++ ")"

/-- Mirrors `GoogleDocsMcpServer::google_docs_get_document` from
`src/tools/documents.rs` (lines 62-82).  `tok` is the outcome
`get_access_token` would produce and `env` the document API's behaviour; both
are consulted only if the local document-ID check passes. -/
def google_docs_get_document (params : GetDocumentParams)
    (tok : GetTokenResult) (env : ApiCallEnv Document) : ToolRun :=
  if (rustTrim params.document_id).isEmpty then
    { result := some { isError := true, text := "Document ID cannot be empty" }
      issuerTrips := 0
      apiCalls := 0 }
  else
    match get_document tok env with
    | (Except.ok document, n) =>
        { result := some
            { isError := false
              text := format_get_response document params.response_format }
          issuerTrips := tok.issuerTrips
          apiCalls := n }
    | (Except.error e, n) =>
        { result := some
            { isError := true
              text := "Failed to get document: " ++ renderMcpError e }
          issuerTrips := tok.issuerTrips
          apiCalls := n }

/-- Mirrors `GoogleDocsMcpServer::google_docs_update_document` from
`src/tools/documents.rs` (lines 138-177): empty-ID check, empty-list check,
local `convert_requests` validation, then `batch_update` and response
formatting.  A `truncate_text` panic in the markdown formatter escapes the
handler (`result := none`). -/
def google_docs_update_document (params : UpdateDocumentParams)
    (tok : GetTokenResult) (env : ApiCallEnv BatchUpdateResponse) : ToolRun :=
  if (rustTrim params.document_id).isEmpty then
    { result := some { isError := true, text := "Document ID cannot be empty" }
      issuerTrips := 0
      apiCalls := 0 }
  else if params.requests.isEmpty then
    { result := some
        { isError := true, text := "At least one update request is required" }
      issuerTrips := 0
      apiCalls := 0 }
  else
    match convert_requests params.requests with
    | Except.error e =>
        { result := some { isError := true, text := e }
          issuerTrips := 0
          apiCalls := 0 }
    | Except.ok google_requests =>
        match batch_update google_requests tok env with
        | (Except.ok r, n) =>
            match format_update_response r.document_id params.requests
                params.response_format with
            | some text =>
                { result := some { isError := false, text := text }
                  issuerTrips := tok.issuerTrips
                  apiCalls := n }
            | none =>
                { result := none
                  issuerTrips := tok.issuerTrips
                  apiCalls := n }
        | (Except.error e, n) =>
            { result := some
                { isError := true
                  text := "Failed to update document: " ++ renderMcpError e }
              issuerTrips := tok.issuerTrips
              apiCalls := n }

/-!
Interleaving model of two concurrent `get_access_token` callers, following
the lock discipline of `src/api/client.rs` lines 81-104: the read lock is
held only for the freshness check (lines 83-92) and released before
`fetch_new_token`; the network round-trip runs outside any lock
(lines 94-95); the write lock is taken only for the swap (lines 98-101).
Each atomic step of a caller is therefore: the check under the read lock, the
start of its issuer round-trip, the end of its issuer round-trip, and the
write under the write lock.  A scheduler (a list of caller picks) interleaves
the two callers' steps.
-/

/-- Program counter of one caller inside `get_access_token`. -/
inductive Phase where
  | checkCache
  | fetchStart
  | fetchEnd
  | writeCache
  | finished
deriving Repr, DecidableEq

/-- One caller: its program counter, the token its refresh would produce
(the environment's choice), the number of issuer round-trips it has started,
and its return value once finished. -/
structure Caller where
  phase : Phase
  newTok : CachedToken
  trips : Nat
  retVal : Option String
deriving Repr, DecidableEq

/-- Shared state of the two-caller system: the clock at the freshness checks,
the cached-token slot, the two callers, the number of issuer round-trips
currently in flight, and the high-water mark of that number. -/
structure Sys where
  now : Int
  cache : Option CachedToken
  a : Caller
  b : Caller
  active : Nat
  maxActive : Nat
deriving Repr, DecidableEq

/-- Executes one atomic step of the caller selected by `pick` (`true` = `a`).
`checkCache` performs the read-locked freshness check of lines 84-91;
`fetchStart`/`fetchEnd` bracket the issuer round-trip of `fetch_new_token`;
`writeCache` performs the write-locked swap of lines 98-101. -/
def stepSys (s : Sys) (pick : Bool) : Sys :=
  let c := if pick then s.a else s.b
  let put := fun (s' : Sys) (c' : Caller) =>
    if pick then { s' with a := c' } else { s' with b := c' }
  match c.phase with
  | Phase.checkCache =>
      match s.cache with
      | some t =>
          if tokenFresh t s.now then
            put s { c with phase := Phase.finished, retVal := some t.access_token }
          else
            put s { c with phase := Phase.fetchStart }
      | none => put s { c with phase := Phase.fetchStart }
  | Phase.fetchStart =>
      put { s with active := s.active + 1, maxActive := max s.maxActive (s.active + 1) }
        { c with phase := Phase.fetchEnd, trips := c.trips + 1 }
  | Phase.fetchEnd =>
      put { s with active := s.active - 1 } { c with phase := Phase.writeCache }
  | Phase.writeCache =>
      put { s with cache := some c.newTok }
        { c with phase := Phase.finished, retVal := some c.newTok.access_token }
  | Phase.finished => s

/-- Runs the two-caller system under a schedule. -/
def runSys (s : Sys) : List Bool → Sys
  | [] => s
  | p :: ps => runSys (stepSys s p) ps

/-- A caller that has not yet started executing `get_access_token`. -/
def freshCaller (tok : CachedToken) : Caller :=
  { phase := Phase.checkCache, newTok := tok, trips := 0, retVal := none }

/-- Two concurrent callers starting with an absent cached token. -/
def sysStaleStart : Sys :=
  { now := 0
    cache := none
    a := freshCaller { access_token := "TA", expires_at := 4000 }
    b := freshCaller { access_token := "TB", expires_at := 4000 }
    active := 0
    maxActive := 0 }

/-- Invariant of one caller: it starts at most one issuer round-trip per
`get_access_token` call, and none before it has passed the staleness check. -/
def CallerInv (c : Caller) : Prop :=
  c.trips ≤ 1 ∧
    ((c.phase = Phase.checkCache ∨ c.phase = Phase.fetchStart) → c.trips = 0)

/-!
Concrete fixtures used by the witnesses and counterexamples below.
-/

/-- A refresh environment in which the issuer succeeds with a one-hour token. -/
def envSucc : RefreshEnv :=
  { jwt := JwtOutcome.ok "jwt"
    exchange := ExchangeOutcome.response 200 ""
      (Except.ok { access_token := "T", token_type := "Bearer", expires_in := 3600 }) }

/-- A refresh environment in which the issuer succeeds but reports
`expires_in = 0`. -/
def envZero : RefreshEnv :=
  { jwt := JwtOutcome.ok "jwt"
    exchange := ExchangeOutcome.response 200 ""
      (Except.ok { access_token := "T", token_type := "Bearer", expires_in := 0 }) }

/-- A refresh environment that fails before any network round-trip. -/
def envKeyFail : RefreshEnv :=
  { jwt := JwtOutcome.keyError "bad pem"
    exchange := ExchangeOutcome.response 200 "" (Except.error "unused") }

/-- A refresh environment whose issuer round-trip is rejected with HTTP 400. -/
def envIssuerReject : RefreshEnv :=
  { jwt := JwtOutcome.ok "jwt"
    exchange := ExchangeOutcome.response 400 "invalid_grant" (Except.error "not json") }

/-- A token-manager outcome holding a valid token (used where a tool call
reaches the network layer). -/
def tokOk : GetTokenResult :=
  { result := Except.ok "tk"
    cache := some { access_token := "tk", expires_at := 4000 }
    issuerTrips := 1
    refreshAttempted := true }

/-- A document API environment answering 200 with an empty document. -/
def envDocOk : ApiCallEnv Document :=
  { net := none
    status := 200
    body := ""
    parsed := Except.ok
      { document_id := "doc1", title := "t", body := none, tabs := [], revision_id := none } }

/-- A batch-update environment answering 200. -/
def envUpdOk : ApiCallEnv BatchUpdateResponse :=
  { net := none
    status := 200
    body := ""
    parsed := Except.ok { document_id := "doc1", replies := [] } }

/-- Thirteen four-byte characters: 52 UTF-8 bytes, and no char boundary at
byte 50. -/
def bigEmoji : String := String.mk (List.replicate 13 '😀')

/-- The wire request produced for `InsertText { text: "hi", index: 1 }`. -/
def ghi : GoogleDocsRequest :=
  { insert_text := some { text := "hi", location := { index := 1 } }
    delete_content_range := none
    replace_all_text := none }

/-- The refresh path always reports that a refresh was attempted. -/
theorem refreshAndCache_attempted (cache : Option CachedToken) (t0 : Int)
    (env : RefreshEnv) : (refreshAndCache cache t0 env).refreshAttempted = true := by
  unfold refreshAndCache
  rcases h : fetch_new_token t0 env with e | t <;> simp [h]

/-- The refresh path performs exactly the round-trips of the refresh attempt. -/
theorem refreshAndCache_trips (cache : Option CachedToken) (t0 : Int)
    (env : RefreshEnv) : (refreshAndCache cache t0 env).issuerTrips = issuerTrips env := by
  unfold refreshAndCache
  rcases h : fetch_new_token t0 env with e | t <;> simp [h]

/-- When the cached slot is stale or absent, `get_access_token` takes the
refresh path. -/
theorem get_access_token_stale (cache : Option CachedToken) (now t0 : Int)
    (env : RefreshEnv) (hstale : cacheFresh cache now = false) :
    get_access_token cache now t0 env = refreshAndCache cache t0 env := by
  cases cache with
  | none => rfl
  | some t =>
      simp only [cacheFresh] at hstale
      simp [get_access_token, hstale]

/-- C1: a cached token with `expires_at > now + 60` at the freshness check is
returned as-is with no issuer round-trip and no refresh attempt; a stale or
absent cached token makes `get_access_token` enter the refresh protocol, and
whenever the JWT is successfully built (the only failure mode that precedes
the network phase) exactly one issuer round-trip is performed. -/
theorem C1_cached_token_reuse (cache : Option CachedToken) (now t0 : Int)
    (env : RefreshEnv) :
    (∀ t, cache = some t → tokenFresh t now = true →
      get_access_token cache now t0 env =
        { result := Except.ok t.access_token
          cache := some t
          issuerTrips := 0
          refreshAttempted := false })
    ∧ (cacheFresh cache now = false →
        (get_access_token cache now t0 env).refreshAttempted = true
        ∧ ∀ jwt, env.jwt = JwtOutcome.ok jwt →
            (get_access_token cache now t0 env).issuerTrips = 1) := by
  constructor
  · intro t ht hf
    subst ht
    simp [get_access_token, hf]
  · intro hstale
    rw [get_access_token_stale cache now t0 env hstale]
    refine ⟨refreshAndCache_attempted cache t0 env, fun jwt hjwt => ?_⟩
    rw [refreshAndCache_trips cache t0 env]
    simp [issuerTrips, hjwt]

/-- Witness for C1 at concrete inputs: a fresh cached token (expiry 100 at
time 0) is returned with zero round-trips, and an absent cached token drives
a refresh with exactly one round-trip. -/
theorem C1_cached_token_reuse_witness :
    get_access_token (some { access_token := "tok", expires_at := 100 }) 0 0 envSucc =
      { result := Except.ok "tok"
        cache := some { access_token := "tok", expires_at := 100 }
        issuerTrips := 0
        refreshAttempted := false }
    ∧ (get_access_token none 0 0 envSucc).refreshAttempted = true
    ∧ (get_access_token none 0 0 envSucc).issuerTrips = 1 :=
  ⟨(C1_cached_token_reuse (some { access_token := "tok", expires_at := 100 }) 0 0 envSucc).1
      { access_token := "tok", expires_at := 100 } rfl (by decide),
   ((C1_cached_token_reuse none 0 0 envSucc).2 (by decide)).1,
   ((C1_cached_token_reuse none 0 0 envSucc).2 (by decide)).2 "jwt" rfl⟩

/-- C2: a successful refresh computes `expires_at = t0 + expires_in` from the
timestamp `t0` taken at the start of `fetch_new_token`, before the network
exchange, and the entry subsequently written to the cache carries exactly
that expiry. -/
theorem C2_expiry_from_refresh_start (cache : Option CachedToken) (now t0 : Int)
    (jwt body : String) (status : Nat) (tr : TokenResponse)
    (hs : isSuccessStatus status = true) :
    fetch_new_token t0
        { jwt := JwtOutcome.ok jwt
          exchange := ExchangeOutcome.response status body (Except.ok tr) }
      = Except.ok { access_token := tr.access_token, expires_at := t0 + tr.expires_in }
    ∧ (cacheFresh cache now = false →
        (get_access_token cache now t0
            { jwt := JwtOutcome.ok jwt
              exchange := ExchangeOutcome.response status body (Except.ok tr) }).cache
          = some { access_token := tr.access_token, expires_at := t0 + tr.expires_in }) := by
  have h1 : fetch_new_token t0
      { jwt := JwtOutcome.ok jwt
        exchange := ExchangeOutcome.response status body (Except.ok tr) }
      = Except.ok { access_token := tr.access_token, expires_at := t0 + tr.expires_in } := by
    simp [fetch_new_token, hs]
  refine ⟨h1, fun hstale => ?_⟩
  rw [get_access_token_stale _ _ _ _ hstale]
  unfold refreshAndCache
  rw [h1]

/-- Witness for C2 at the spec's own example: issuer response
`{access_token:"T", token_type:"Bearer", expires_in:3600}` at `t0 = 5` caches
`expires_at = 5 + 3600` exactly. -/
theorem C2_expiry_from_refresh_start_witness :
    fetch_new_token 5
        { jwt := JwtOutcome.ok "jwt"
          exchange := ExchangeOutcome.response 200 ""
            (Except.ok { access_token := "T", token_type := "Bearer", expires_in := 3600 }) }
      = Except.ok { access_token := "T", expires_at := 5 + 3600 }
    ∧ (get_access_token none 5 5
        { jwt := JwtOutcome.ok "jwt"
          exchange := ExchangeOutcome.response 200 ""
            (Except.ok { access_token := "T", token_type := "Bearer", expires_in := 3600 }) }).cache
      = some { access_token := "T", expires_at := 5 + 3600 } :=
  ⟨(C2_expiry_from_refresh_start none 5 5 "jwt" "" 200
      { access_token := "T", token_type := "Bearer", expires_in := 3600 } (by decide)).1,
   (C2_expiry_from_refresh_start none 5 5 "jwt" "" 200
      { access_token := "T", token_type := "Bearer", expires_in := 3600 } (by decide)).2
      (by decide)⟩

/-- C3 as stated is false: it asserts `expires_at > now` for every value of
`expires_in` the issuer may return, but with `expires_in = 0` at `now = 0`
the refresh succeeds, returns the token, and caches `expires_at = 0`, which
does not exceed `now = 0`. -/
theorem C3_returned_validity_counterexample :
    exceptIsOk (get_access_token none 0 0 envZero).result = true
    ∧ (get_access_token none 0 0 envZero).cache
        = some { access_token := "T", expires_at := 0 }
    ∧ ¬ (0 : Int) < (CachedToken.mk "T" 0).expires_at := by
  decide

/-- C3 amended: on the cached path the returned token always has more than
60 seconds of remaining validity at the freshness check (hence
`expires_at > now`); on the refresh path the cached entry has
`expires_at = t0 + expires_in`, which exceeds `now` provided the issuer
reports `expires_in ≥ 1` and the refresh-start clock reading `t0` is not
before the check-time reading `now` — but not for every `expires_in`. -/
theorem C3_returned_validity_amended (cache : Option CachedToken) (now t0 : Int)
    (env : RefreshEnv) (jwt body : String) (status : Nat) (tr : TokenResponse) :
    (∀ t, cache = some t → tokenFresh t now = true →
      (get_access_token cache now t0 env).result = Except.ok t.access_token
        ∧ now + 60 < t.expires_at ∧ now < t.expires_at)
    ∧ (cacheFresh cache now = false → isSuccessStatus status = true →
        1 ≤ tr.expires_in → now ≤ t0 →
        (get_access_token cache now t0
            { jwt := JwtOutcome.ok jwt
              exchange := ExchangeOutcome.response status body (Except.ok tr) }).result
          = Except.ok tr.access_token
        ∧ (get_access_token cache now t0
            { jwt := JwtOutcome.ok jwt
              exchange := ExchangeOutcome.response status body (Except.ok tr) }).cache
          = some { access_token := tr.access_token, expires_at := t0 + tr.expires_in }
        ∧ now < t0 + tr.expires_in) := by
  constructor
  · intro t ht hf
    subst ht
    have hlt : now + 60 < t.expires_at := by
      simpa [tokenFresh] using hf
    refine ⟨?_, hlt, by omega⟩
    simp [get_access_token, hf]
  · intro hstale hs hpos hmono
    have h := C2_expiry_from_refresh_start cache now t0 jwt body status tr hs
    rw [get_access_token_stale _ _ _ _ hstale]
    unfold refreshAndCache
    rw [h.1]
    exact ⟨rfl, rfl, by omega⟩

/-- Witness for the amended C3 at concrete inputs: the cached path at
expiry 100, time 0, and the refresh path at `t0 = now = 0`,
`expires_in = 3600`. -/
theorem C3_returned_validity_amended_witness :
    ((get_access_token (some { access_token := "tok", expires_at := 100 }) 0 0 envSucc).result
        = Except.ok "tok"
      ∧ (0 : Int) + 60 < 100 ∧ (0 : Int) < 100)
    ∧ ((get_access_token none 0 0
          { jwt := JwtOutcome.ok "jwt"
            exchange := ExchangeOutcome.response 200 ""
              (Except.ok { access_token := "T", token_type := "Bearer", expires_in := 3600 }) }).result
        = Except.ok "T"
      ∧ (get_access_token none 0 0
          { jwt := JwtOutcome.ok "jwt"
            exchange := ExchangeOutcome.response 200 ""
              (Except.ok { access_token := "T", token_type := "Bearer", expires_in := 3600 }) }).cache
        = some { access_token := "T", expires_at := 0 + 3600 }
      ∧ (0 : Int) < 0 + 3600) :=
  ⟨(C3_returned_validity_amended (some { access_token := "tok", expires_at := 100 }) 0 0
      envSucc "jwt" "" 200
      { access_token := "T", token_type := "Bearer", expires_in := 3600 }).1
      { access_token := "tok", expires_at := 100 } rfl (by decide),
   (C3_returned_validity_amended none 0 0 envSucc "jwt" "" 200
      { access_token := "T", token_type := "Bearer", expires_in := 3600 }).2
      (by decide) (by decide) (by decide) (by decide)⟩

/-- C10: when the refresh fails at any step (key parsing, signing, transport,
non-success issuer status, or response parsing), `get_access_token` returns
that error and the cached slot is exactly what it was before the attempt. -/
theorem C10_failed_refresh_preserves_cache (cache : Option CachedToken)
    (now t0 : Int) (env : RefreshEnv) (e : McpError)
    (hstale : cacheFresh cache now = false)
    (hfail : fetch_new_token t0 env = Except.error e) :
    get_access_token cache now t0 env =
      { result := Except.error e
        cache := cache
        issuerTrips := issuerTrips env
        refreshAttempted := true } := by
  rw [get_access_token_stale cache now t0 env hstale]
  unfold refreshAndCache
  rw [hfail]

/-- Witness for C10 at concrete inputs: a stale cached token (expiry 10 at
time 0) survives a key-parse failure and an issuer-reject failure unchanged. -/
theorem C10_failed_refresh_preserves_cache_witness :
    get_access_token (some { access_token := "old", expires_at := 10 }) 0 0 envKeyFail =
      { result := Except.error (internal_error "Failed to parse private key: bad pem")
        cache := some { access_token := "old", expires_at := 10 }
        issuerTrips := 0
        refreshAttempted := true }
    ∧ get_access_token (some { access_token := "old", expires_at := 10 }) 0 0 envIssuerReject =
      { result := Except.error
          (internal_error ("Failed to obtain access token: " ++ toString 400 ++ " - invalid_grant"))
        cache := some { access_token := "old", expires_at := 10 }
        issuerTrips := 1
        refreshAttempted := true } :=
  ⟨C10_failed_refresh_preserves_cache (some { access_token := "old", expires_at := 10 })
      0 0 envKeyFail (internal_error "Failed to parse private key: bad pem")
      (by decide) (by decide),
   C10_failed_refresh_preserves_cache (some { access_token := "old", expires_at := 10 })
      0 0 envIssuerReject
      (internal_error ("Failed to obtain access token: " ++ toString 400 ++ " - invalid_grant"))
      (by decide) (by decide)⟩

/-- C4 as stated is false: under the code's lock discipline the schedule in
which both callers pass the read-locked freshness check before either starts
its fetch drives two issuer round-trips that are simultaneously in flight
(`maxActive = 2`), so refreshes are not single-flighted. -/
theorem C4_single_flight_counterexample :
    (runSys sysStaleStart [true, false, true, false]).maxActive = 2
    ∧ ¬ (runSys sysStaleStart [true, false, true, false]).maxActive ≤ 1 := by
  decide

/-- One step preserves the per-caller invariant: a caller that has not yet
passed the staleness check has started no round-trip, and no caller ever
starts a second one. -/
theorem stepSys_inv (s : Sys) (pick : Bool)
    (ha : CallerInv s.a) (hb : CallerInv s.b) :
    CallerInv (stepSys s pick).a ∧ CallerInv (stepSys s pick).b := by
  obtain ⟨ha1, ha2⟩ := ha
  obtain ⟨hb1, hb2⟩ := hb
  cases pick
  · unfold stepSys
    simp only [if_true, if_false, Bool.false_eq_true]
    rcases hp : s.b.phase with _ | _ | _ | _ | _ <;> simp_all [CallerInv] <;>
      (rcases s.cache with _ | t <;> simp_all [CallerInv] <;> split <;> simp_all [CallerInv])
  · unfold stepSys
    simp only [if_true, if_false, Bool.false_eq_true]
    rcases hp : s.a.phase with _ | _ | _ | _ | _ <;> simp_all [CallerInv] <;>
      (rcases s.cache with _ | t <;> simp_all [CallerInv] <;> split <;> simp_all [CallerInv])

/-- C4 amended: the refresh is not single-flight — concurrent callers that
observe a stale or absent token may each perform a full refresh round-trip,
with several in flight at once and the last writer winning — but each caller
performs at most one issuer round-trip per `get_access_token` call, and a
caller performs none before observing staleness. -/
theorem C4_single_flight_amended (s : Sys) (sched : List Bool)
    (ha : CallerInv s.a) (hb : CallerInv s.b) :
    CallerInv (runSys s sched).a ∧ CallerInv (runSys s sched).b := by
  induction sched generalizing s with
  | nil => exact ⟨ha, hb⟩
  | cons p ps ih =>
      have h := stepSys_inv s p ha hb
      exact ih (stepSys s p) h.1 h.2

/-- Witness for the amended C4: in the interleaving of the counterexample both
callers complete, and each has performed exactly one (hence at most one)
issuer round-trip. -/
theorem C4_single_flight_amended_witness :
    (CallerInv (runSys sysStaleStart [true, false, true, false]).a
      ∧ CallerInv (runSys sysStaleStart [true, false, true, false]).b)
    ∧ (runSys sysStaleStart [true, false, true, false]).a.trips = 1
    ∧ (runSys sysStaleStart [true, false, true, false]).b.trips = 1 :=
  ⟨C4_single_flight_amended sysStaleStart [true, false, true, false]
      (by constructor <;> decide) (by constructor <;> decide),
   by decide, by decide⟩

/-- C5: `handle_response` maps 404 to the document-not-found error, 403 to
permission-denied, 401 to authentication-failed, 429 to rate-limited, every
other non-2xx status to the generic API error carrying both status and body,
and parses every 2xx response into the typed result; and a gateway operation
performs exactly one outbound document-API call (no retry) once a token is
available. -/
theorem C5_status_mapping {T : Type} (body : String) (parsed : Except String T)
    (tok : GetTokenResult) (token : String) (envD : ApiCallEnv Document) :
    handle_response 404 body parsed
      = Except.error (invalid_params
          ("Document not found. Please check the document ID. Details: " ++ body))
    ∧ handle_response 403 body parsed
      = Except.error (invalid_params
          ("Permission denied. Ensure the service account has access to this document. Details: "
            ++ body))
    ∧ handle_response 401 body parsed
      = Except.error (internal_error
          ("Authentication failed. Check service account credentials. Details: " ++ body))
    ∧ handle_response 429 body parsed
      = Except.error (internal_error
          "Rate limit exceeded. Please wait before making more requests.")
    ∧ (∀ status : Nat, isSuccessStatus status = false →
        status ≠ 404 → status ≠ 403 → status ≠ 401 → status ≠ 429 →
        handle_response status body parsed
          = Except.error (internal_error
              ("API request failed with status " ++ toString status ++ ": " ++ body)))
    ∧ (∀ status : Nat, ∀ t : T, isSuccessStatus status = true →
        parsed = Except.ok t → handle_response status body parsed = Except.ok t)
    ∧ (tok.result = Except.ok token → get_document tok envD = (docApiCall envD, 1)) := by
  refine ⟨rfl, rfl, rfl, rfl, ?_, ?_, ?_⟩
  · intro status hs h404 h403 h401 h429
    simp [handle_response, hs, h404, h403, h401, h429]
  · intro status t hs hp
    simp [handle_response, hs, hp]
  · intro h
    simp [get_document, h]

/-- Witness for C5 at concrete inputs: statuses 404, 403, 429, the generic
status 500, a parsed 200 response, and the single-call count through
`get_document`. -/
theorem C5_status_mapping_witness :
    handle_response 404 "b" (Except.error "x" : Except String Document)
      = Except.error (invalid_params
          ("Document not found. Please check the document ID. Details: " ++ "b"))
    ∧ handle_response 403 "b" (Except.error "x" : Except String Document)
      = Except.error (invalid_params
          ("Permission denied. Ensure the service account has access to this document. Details: "
            ++ "b"))
    ∧ handle_response 429 "b" (Except.error "x" : Except String Document)
      = Except.error (internal_error
          "Rate limit exceeded. Please wait before making more requests.")
    ∧ handle_response 500 "b" (Except.error "x" : Except String Document)
      = Except.error (internal_error
          ("API request failed with status " ++ toString 500 ++ ": " ++ "b"))
    ∧ handle_response 200 "" envDocOk.parsed
      = Except.ok
          { document_id := "doc1", title := "t", body := none, tabs := [],
            revision_id := none }
    ∧ get_document tokOk envDocOk = (docApiCall envDocOk, 1) :=
  ⟨(C5_status_mapping "b" (Except.error "x") tokOk "tk" envDocOk).1,
   (C5_status_mapping "b" (Except.error "x") tokOk "tk" envDocOk).2.1,
   (C5_status_mapping "b" (Except.error "x") tokOk "tk" envDocOk).2.2.2.1,
   (C5_status_mapping "b" (Except.error "x") tokOk "tk" envDocOk).2.2.2.2.1 500
      (by decide) (by decide) (by decide) (by decide) (by decide),
   (C5_status_mapping "" envDocOk.parsed tokOk "tk" envDocOk).2.2.2.2.2.1 200
      { document_id := "doc1", title := "t", body := none, tabs := [], revision_id := none }
      (by decide) rfl,
   (C5_status_mapping "" envDocOk.parsed tokOk "tk" envDocOk).2.2.2.2.2.2 rfl⟩

/-- A single operation converts successfully exactly when it satisfies the
spec's §4.2 precondition. -/
theorem convertOne_ok_iff (r : DocumentRequest) :
    exceptIsOk (convertOne r) = validOp r := by
  cases r with
  | insertText t i =>
      by_cases hi : i < 1
      · have : ¬ (1 : Int) ≤ i := by omega
        simp [convertOne, validOp, exceptIsOk, hi, this]
      · have : (1 : Int) ≤ i := by omega
        simp [convertOne, validOp, exceptIsOk, hi, this]
  | deleteContentRange s e =>
      by_cases hs : s < 1
      · have : ¬ (1 : Int) ≤ s := by omega
        simp [convertOne, validOp, exceptIsOk, hs, this]
      · by_cases he : e ≤ s
        · have h1 : (1 : Int) ≤ s := by omega
          have h2 : ¬ s < e := by omega
          simp [convertOne, validOp, exceptIsOk, hs, he, h1, h2]
        · have h1 : (1 : Int) ≤ s := by omega
          have h2 : s < e := by omega
          simp [convertOne, validOp, exceptIsOk, hs, he, h1, h2]
  | replaceAllText f r mc =>
      by_cases hf : f.isEmpty
      · simp [convertOne, validOp, exceptIsOk, hf]
      · simp [convertOne, validOp, exceptIsOk, hf]

/-- C6: `convert_requests` fails with a validation error exactly when some
operation in the input violates its precondition — insert index below 1,
delete range with start below 1 or end not exceeding start, or empty find
text — and succeeds on every input all of whose operations satisfy them. -/
theorem C6_validation_iff (reqs : List DocumentRequest) :
    exceptIsOk (convert_requests reqs) = reqs.all validOp
    ∧ (exceptIsOk (convert_requests reqs) = true ↔ ∀ r ∈ reqs, validOp r = true) := by
  have hall : exceptIsOk (convert_requests reqs) = reqs.all validOp := by
    induction reqs with
    | nil => rfl
    | cons r rs ih =>
        have hr := convertOne_ok_iff r
        simp only [convert_requests, List.all_cons]
        cases hc : convertOne r with
        | error e =>
            rw [hc] at hr
            have hvr : validOp r = false := by
              simpa [exceptIsOk] using hr.symm
            simp [exceptIsOk, hvr]
        | ok g =>
            rw [hc] at hr
            have hvr : validOp r = true := by
              simpa [exceptIsOk] using hr.symm
            cases hc2 : convert_requests rs with
            | error e2 =>
                rw [hc2] at ih
                have hrs : rs.all validOp = false := by
                  simpa [exceptIsOk] using ih.symm
                simp [exceptIsOk, hvr, hrs]
            | ok gs =>
                rw [hc2] at ih
                have hrs : rs.all validOp = true := by
                  simpa [exceptIsOk] using ih.symm
                simp [exceptIsOk, hvr, hrs]
  refine ⟨hall, ?_⟩
  rw [hall, List.all_eq_true]

/-- Witness for C6 at the spec's own examples: index 1, range [5,10) and a
non-empty find text are accepted; index 0, range [5,5) and an empty find
text are each rejected. -/
theorem C6_validation_iff_witness :
    exceptIsOk (convert_requests
        [DocumentRequest.insertText "x" 1, DocumentRequest.deleteContentRange 5 10,
         DocumentRequest.replaceAllText "a" "b" false]) = true
    ∧ exceptIsOk (convert_requests [DocumentRequest.insertText "x" 0]) = false
    ∧ exceptIsOk (convert_requests [DocumentRequest.deleteContentRange 5 5]) = false
    ∧ exceptIsOk (convert_requests [DocumentRequest.replaceAllText "" "r" true]) = false := by
  refine ⟨?_, ?_, ?_, ?_⟩
  · exact (C6_validation_iff _).2.mpr (by decide)
  · rw [(C6_validation_iff _).1]; decide
  · rw [(C6_validation_iff _).1]; decide
  · rw [(C6_validation_iff _).1]; decide

/-- A successfully converted operation carries exactly one of the three
mutually-exclusive wire keys. -/
theorem convertOne_exactlyOne (r : DocumentRequest) (g : GoogleDocsRequest)
    (h : convertOne r = Except.ok g) : exactlyOneKey g = true := by
  cases r with
  | insertText t i =>
      by_cases hi : i < 1
      · simp [convertOne, hi] at h
      · simp [convertOne, hi] at h
        subst h
        rfl
  | deleteContentRange s e =>
      by_cases hs : s < 1
      · simp [convertOne, hs] at h
      · by_cases he : e ≤ s
        · simp [convertOne, hs, he] at h
        · simp [convertOne, hs, he] at h
          subst h
          rfl
  | replaceAllText f r mc =>
      by_cases hf : f.isEmpty
      · simp [convertOne, hf] at h
      · simp [convertOne, hf] at h
        subst h
        rfl

/-- C7: a successful conversion maps the input list elementwise and in order
(`Forall₂` with `convertOne`), preserves its length, and every produced wire
request has exactly one of the three mutually-exclusive keys present. -/
theorem C7_wire_shape (reqs : List DocumentRequest) (gs : List GoogleDocsRequest)
    (h : convert_requests reqs = Except.ok gs) :
    List.Forall₂ (fun r g => convertOne r = Except.ok g) reqs gs
    ∧ gs.length = reqs.length
    ∧ ∀ g ∈ gs, exactlyOneKey g = true := by
  induction reqs generalizing gs with
  | nil =>
      simp only [convert_requests] at h
      cases h
      exact ⟨List.Forall₂.nil, rfl, by simp⟩
  | cons r rs ih =>
      simp only [convert_requests] at h
      cases hc : convertOne r with
      | error e => rw [hc] at h; cases h
      | ok g =>
          rw [hc] at h
          cases hc2 : convert_requests rs with
          | error e2 => rw [hc2] at h; cases h
          | ok gs2 =>
              rw [hc2] at h
              cases h
              obtain ⟨hf, hl, hk⟩ := ih gs2 hc2
              refine ⟨List.Forall₂.cons hc hf, by simp [hl], ?_⟩
              intro g2 hg2
              rcases List.mem_cons.mp hg2 with hg2 | hg2
              · subst hg2
                exact convertOne_exactlyOne r g2 hc
              · exact hk g2 hg2

/-- Witness for C7 at the spec's own example: `InsertText {text:"hi", index:1}`
converts to exactly one wire element carrying `insertText` with text `"hi"`
and `location.index = 1` and no other key, in an output list of the input's
length. -/
theorem C7_wire_shape_witness :
    convert_requests [DocumentRequest.insertText "hi" 1] = Except.ok [ghi]
    ∧ ghi.insert_text = some { text := "hi", location := { index := 1 } }
    ∧ ghi.delete_content_range = none
    ∧ ghi.replace_all_text = none
    ∧ exactlyOneKey ghi = true
    ∧ [ghi].length = [DocumentRequest.insertText "hi" 1].length
    ∧ List.Forall₂ (fun r g => convertOne r = Except.ok g)
        [DocumentRequest.insertText "hi" 1] [ghi] :=
  ⟨by decide, rfl, rfl, rfl,
   (C7_wire_shape [DocumentRequest.insertText "hi" 1] [ghi] (by decide)).2.2 ghi
      (by simp),
   (C7_wire_shape [DocumentRequest.insertText "hi" 1] [ghi] (by decide)).2.1.symm ▸ rfl,
   (C7_wire_shape [DocumentRequest.insertText "hi" 1] [ghi] (by decide)).1⟩

/-- C8: a whitespace-trimmed-empty document ID (for both tools), an empty
request list, and a request list failing local validation are each rejected
locally with their own error payloads — the fixed local messages and the
`convert_requests` validation message, never the remote-error wrappers — and
with zero issuer round-trips and zero document-API calls, whatever the
network environment would have answered. -/
theorem C8_local_rejection (tok : GetTokenResult) (envG : ApiCallEnv Document)
    (envU : ApiCallEnv BatchUpdateResponse) :
    (∀ p : GetDocumentParams, (rustTrim p.document_id).isEmpty = true →
        google_docs_get_document p tok envG =
          { result := some { isError := true, text := "Document ID cannot be empty" }
            issuerTrips := 0
            apiCalls := 0 })
    ∧ (∀ p : UpdateDocumentParams, (rustTrim p.document_id).isEmpty = true →
        google_docs_update_document p tok envU =
          { result := some { isError := true, text := "Document ID cannot be empty" }
            issuerTrips := 0
            apiCalls := 0 })
    ∧ (∀ p : UpdateDocumentParams, (rustTrim p.document_id).isEmpty = false →
        p.requests = [] →
        google_docs_update_document p tok envU =
          { result := some
              { isError := true, text := "At least one update request is required" }
            issuerTrips := 0
            apiCalls := 0 })
    ∧ (∀ p : UpdateDocumentParams, ∀ e : String,
        (rustTrim p.document_id).isEmpty = false →
        p.requests ≠ [] →
        convert_requests p.requests = Except.error e →
        google_docs_update_document p tok envU =
          { result := some { isError := true, text := e }
            issuerTrips := 0
            apiCalls := 0 }) := by
  refine ⟨?_, ?_, ?_, ?_⟩
  · intro p hid
    simp [google_docs_get_document, hid]
  · intro p hid
    simp [google_docs_update_document, hid]
  · intro p hid hreq
    simp [google_docs_update_document, hid, hreq]
  · intro p e hid hreq hconv
    have hne : p.requests.isEmpty = false := by
      cases hr : p.requests with
      | nil => exact absurd hr hreq
      | cons x xs => rfl
    simp [google_docs_update_document, hid, hne, hconv]

/-- Witness for C8 at concrete inputs: an empty ID for both tools, a
whitespace-only ID, an empty request list, and an invalid insert index, each
rejected with zero network calls against live-looking environments. -/
theorem C8_local_rejection_witness :
    google_docs_get_document
        { document_id := "", response_format := ResponseFormat.markdown } tokOk envDocOk =
      { result := some { isError := true, text := "Document ID cannot be empty" }
        issuerTrips := 0
        apiCalls := 0 }
    ∧ google_docs_update_document
        { document_id := "  ", requests := [DocumentRequest.insertText "x" 1],
          response_format := ResponseFormat.markdown } tokOk envUpdOk =
      { result := some { isError := true, text := "Document ID cannot be empty" }
        issuerTrips := 0
        apiCalls := 0 }
    ∧ google_docs_update_document
        { document_id := "doc1", requests := [],
          response_format := ResponseFormat.markdown } tokOk envUpdOk =
      { result := some { isError := true, text := "At least one update request is required" }
        issuerTrips := 0
        apiCalls := 0 }
    ∧ google_docs_update_document
        { document_id := "doc1", requests := [DocumentRequest.insertText "x" 0],
          response_format := ResponseFormat.markdown } tokOk envUpdOk =
      { result := some
          { isError := true
            text := "Insert index must be at least 1 (1 = beginning of document body)" }
        issuerTrips := 0
        apiCalls := 0 } :=
  ⟨(C8_local_rejection tokOk envDocOk envUpdOk).1
      { document_id := "", response_format := ResponseFormat.markdown } (by decide),
   (C8_local_rejection tokOk envDocOk envUpdOk).2.1
      { document_id := "  ", requests := [DocumentRequest.insertText "x" 1],
        response_format := ResponseFormat.markdown } (by decide),
   (C8_local_rejection tokOk envDocOk envUpdOk).2.2.1
      { document_id := "doc1", requests := [],
        response_format := ResponseFormat.markdown } (by decide) rfl,
   (C8_local_rejection tokOk envDocOk envUpdOk).2.2.2
      { document_id := "doc1", requests := [DocumentRequest.insertText "x" 0],
        response_format := ResponseFormat.markdown }
      "Insert index must be at least 1 (1 = beginning of document body)"
      (by decide) (by decide) (by decide)⟩

/-- C9 is violated by the code: `truncate_text` slices the string at a byte
index (`&text[..max_len]`), which panics when the index is not a UTF-8 char
boundary.  Thirteen four-byte characters give a 52-byte insert text, byte 50
falls inside the thirteenth character, and the markdown formatting of an
otherwise successful `update_document` call raises an unhandled fault
(modelled as `result = none`) instead of returning a payload. -/
theorem C9_truncate_text_panics :
    truncate_text bigEmoji 50 = none
    ∧ (google_docs_update_document
        { document_id := "doc1"
          requests := [DocumentRequest.insertText bigEmoji 1]
          response_format := ResponseFormat.markdown } tokOk envUpdOk).result = none := by
  decide

end GoogleDocsMcp
